import Mathlib

/-!
Shallow embedding of the inspect-bot repository (src/lib/bot.js,
src/lib/bot_controller.js) and proofs of the frozen claims about it.

Conventions of the embedding:
* JavaScript values that are either absent (`undefined` / `null` / `false`
  sentinels) or present are modelled with `Option`.
* Timer handles (`setTimeout` / `setInterval` results stored on `this`) are
  modelled as `Bool` flags: `true` means the timer is armed.
* Timestamps are `Nat` milliseconds; signed arithmetic on delays uses `Int`.
* The float wear value carried by the GC reply is never computed on by the
  code (it is only copied between fields), so it is modelled as an opaque
  `Int` value.
-/

namespace Inspect

/-! ## JavaScript string helpers

`err.toString().includes(t)` — substring containment over the characters. -/

/-- `charsLead pat l` : the character list `pat` is an initial segment of `l`. -/
def charsLead : List Char → List Char → Bool
  | [], _ => true
  | _ :: _, [] => false
  | p :: ps, c :: cs => p == c && charsLead ps cs

/-- `charsHave pat l` : `pat` occurs contiguously somewhere inside `l`. -/
def charsHave (pat : List Char) : List Char → Bool
  | [] => charsLead pat []
  | c :: cs => charsLead pat (c :: cs) || charsHave pat cs

/-- JavaScript `s.includes(pat)`. -/
def strIncludes (s pat : String) : Bool := charsHave pat.data s.data

/-! ## Data model -/

/-- The parsed inspect-link parameters (`link.getParams()` in bot.js). -/
structure LinkParams where
  s : String
  a : String
  d : String
  m : String
deriving DecidableEq, Repr

/-- `this.currentRequest` in bot.js: `{s, a, d, m, time}`
(`time` is `new Date().getTime()` at `sendFloatRequest`). -/
structure PendingReq where
  s : String
  a : String
  d : String
  m : String
  time : Nat
deriving DecidableEq, Repr

/-- A raw sticker object inside the GC `inspectItemInfo` payload, before the
backwards-compatibility rewrite (bot.js lines 236-239). `sticker_id` is the
proto field; `wear` stands for the untouched remaining fields. -/
structure RawSticker where
  sticker_id : Option Nat
  slot : Nat
  wear : Option Int
deriving DecidableEq, Repr

/-- A sticker after `sticker.stickerId = sticker.sticker_id; delete
sticker.sticker_id;` — `sticker_id = none` models the deleted field. -/
structure NormSticker where
  stickerId : Option Nat
  sticker_id : Option Nat
  slot : Nat
  wear : Option Int
deriving DecidableEq, Repr

/-- The raw `itemData` delivered by the `inspectItemInfo` event
(before the handler wraps and normalizes it). -/
structure RawItemInfo where
  itemid : String
  paintseed : Option Nat
  paintwear : Option Int
  stickers : List RawSticker
deriving DecidableEq, Repr

/-- The normalized `itemData.iteminfo` the handler resolves with:
request fields `s a d m` attached, `paintseed` forced to a number,
`floatvalue` copied from `paintwear`, `paintwear` deleted (`none`),
stickers rewritten. -/
structure NormItemInfo where
  itemid : String
  paintseed : Nat
  paintwear : Option Int
  floatvalue : Option Int
  stickers : List NormSticker
  s : String
  a : String
  d : String
  m : String
deriving DecidableEq, Repr

/-- The full resolved value `{iteminfo, delay}` (bot.js line 241). -/
structure ItemData where
  iteminfo : NormItemInfo
  delay : Int
deriving DecidableEq, Repr

/-- The settings the embedded handlers read
(`this.settings.request_delay`, `request_ttl` is only used to arm the TTL
timer, `max_gc_reconnect_attempts` caps GC reconnects). -/
structure Settings where
  request_delay : Int
  maxGCReconnectAttempts : Nat
  gcReconnectDelay : Nat
deriving Repr

/-- The per-bot mutable state of bot.js, restricted to the fields the claims
are about. Timer handles are `Bool` flags (armed or not); `busyCooldownTimer`
is the anonymous `setTimeout` arming `busy = false` after a reply
(bot.js lines 245-248); `refreshInterval` is the anonymous 30-minute relogin
`setInterval` of the constructor (bot.js lines 61-66), whose handle is never
stored. -/
structure BotSt where
  ready : Bool
  busy : Bool
  hasResolve : Bool
  currentRequest : Option PendingReq
  ttlTimeout : Bool
  busyCooldownTimer : Bool
  lastGCActivity : Nat
  currentLoginRetries : Nat
  loginRetryTimeout : Bool
  currentGCReconnectAttempts : Nat
  gcReconnectTimeout : Bool
  healthCheckInterval : Bool
  refreshInterval : Bool
  sessionLoggedOn : Bool
deriving DecidableEq, Repr

/-- The bot state right after the constructor ran (bot.js lines 29-73):
not ready, not busy, no pending request, retry counters zero, the refresh
interval and the health-check interval armed. -/
def initBot (now : Nat) : BotSt :=
  { ready := false
    busy := false
    hasResolve := false
    currentRequest := none
    ttlTimeout := false
    busyCooldownTimer := false
    lastGCActivity := now
    currentLoginRetries := 0
    loginRetryTimeout := false
    currentGCReconnectAttempts := 0
    gcReconnectTimeout := false
    healthCheckInterval := true
    refreshInterval := true
    sessionLoggedOn := false }

/-! ## sendFloatRequest (bot.js lines 284-310) -/

/-- The arguments the bot passes to `csgoClient.inspectItem(owner, a, d)`. -/
structure InspectCall where
  owner : String
  assetid : String
  d : String
deriving DecidableEq, Repr

/-- What one call to `sendFloatRequest` produced: the post state, the
immediate rejection delivered to the returned promise (if any), and the
inspect RPC forwarded to the session client (if any). -/
structure SendResult where
  state : BotSt
  rejection : Option String
  call : Option InspectCall
deriving Repr

/-- bot.js `sendFloatRequest(link)`, lines 284-310, executed to the end of
its synchronous body.  In source order: store `resolve`, set `busy`, record
`currentRequest` with the current time, then test `this.ready` — rejecting
with the not-ready message or forwarding `inspectItem` — and finally arm the
TTL timer.  The owner argument is `params.s` when it differs from `"0"`,
else `params.m`. -/
def sendFloatRequest (st : BotSt) (link : LinkParams) (now : Nat) : SendResult :=
  let st1 : BotSt :=
    { st with
      hasResolve := true
      busy := true
      currentRequest := some
        { s := link.s, a := link.a, d := link.d, m := link.m, time := now } }
  let rejection : Option String :=
    if st1.ready then none else some "This bot is not ready"
  let call : Option InspectCall :=
    if st1.ready then
      some { owner := if link.s ≠ "0" then link.s else link.m
             assetid := link.a
             d := link.d }
    else none
  { state := { st1 with ttlTimeout := true }
    rejection := rejection
    call := call }

/-! ## inspectItemInfo handler (bot.js lines 198-250) -/

/-- The sticker rewrite of bot.js lines 236-239. -/
def normalizeSticker (st : RawSticker) : NormSticker :=
  { stickerId := st.sticker_id
    sticker_id := none
    slot := st.slot
    wear := st.wear }

/-- The field normalization of bot.js lines 222-239: attach the request
fields, default a falsy `paintseed` to 0, copy `paintwear` into `floatvalue`
and delete `paintwear`, rewrite every sticker. -/
def normalizeItemInfo (raw : RawItemInfo) (req : PendingReq) : NormItemInfo :=
  { itemid := raw.itemid
    s := req.s
    a := req.a
    d := req.d
    m := req.m
    paintseed := raw.paintseed.getD 0
    floatvalue := raw.paintwear
    paintwear := none
    stickers := raw.stickers.map normalizeSticker }

/-- The `csgoClient.on('inspectItemInfo', ...)` handler, bot.js lines
198-250.  Guarded by `this.resolve && this.currentRequest`; a reply whose
`itemid` differs from `currentRequest.a` returns before touching any state.
On a match: update `lastGCActivity`, clear the TTL timer, compute the
cooldown delay `max(0, request_delay - (now - time))`, resolve with the
normalized item data, clear `resolve` and `currentRequest`, and arm the
busy-cooldown timer. -/
def inspectItemInfoStep (cfg : Settings) (st : BotSt) (raw : RawItemInfo)
    (now : Nat) : BotSt × Option ItemData :=
  match st.currentRequest with
  | none => (st, none)
  | some req =>
    if st.hasResolve then
      if raw.itemid ≠ req.a then (st, none)
      else
        let offset : Int := (now : Int) - (req.time : Int)
        let delay0 : Int := cfg.request_delay - offset
        let delay : Int := if delay0 < 0 then 0 else delay0
        ({ st with
            lastGCActivity := now
            ttlTimeout := false
            hasResolve := false
            currentRequest := none
            busyCooldownTimer := true },
         some { iteminfo := normalizeItemInfo raw req, delay := delay })
    else (st, none)

/-! ## Login error handling (bot.js lines 111-146) -/

/-- The Steam error object as the handler inspects it: `err.toString()`
and the optional numeric `err.eresult`. -/
structure SteamErr where
  msg : String
  eresult : Option Nat
deriving DecidableEq, Repr

/-- bot.js lines 127-133: the transient error strings. -/
def retryableErrors : List String :=
  ["Proxy connection timed out",
   "LogonSessionReplaced",
   "ServiceUnavailable",
   "ConnectFailed",
   "Timeout"]

/-- JavaScript truthiness of `err.eresult` (a number: truthy iff present and
nonzero). -/
def eresultTruthy : Option Nat → Bool
  | none => false
  | some n => n != 0

/-- bot.js lines 135-138: `retryableErrors.some(t => err.toString().includes(t)
|| (err.eresult && [84,85,86,87].includes(err.eresult)))`. -/
def isRetryableError (e : SteamErr) : Bool :=
  retryableErrors.any fun t =>
    strIncludes e.msg t ||
      (eresultTruthy e.eresult && [84, 85, 86, 87].contains (e.eresult.getD 0))

/-- What the `steamClient.on('error', ...)` handler does after classifying. -/
inductive LoginErrorAction where
  | scheduleRetry
  | emitLoginFailed
  | noAction
deriving DecidableEq, Repr

/-- bot.js lines 140-145: schedule a retry when retryable and under the cap;
otherwise emit `loginFailed` only when the cap is already reached; otherwise
fall through both branches and do nothing. -/
def loginErrorAction (e : SteamErr) (currentLoginRetries maxLoginRetries : Nat) :
    LoginErrorAction :=
  if isRetryableError e && decide (currentLoginRetries < maxLoginRetries) then
    .scheduleRetry
  else if decide (maxLoginRetries ≤ currentLoginRetries) then
    .emitLoginFailed
  else
    .noAction

/-! ## Retry scheduling (bot.js lines 315-353) -/

/-- JavaScript `v || dflt` on an optional numeric setting: the default wins
when the setting is absent or 0 (both falsy). Used by the constructor for
`login_retry_delay || 5000` and `gc_reconnect_delay || 10000`
(bot.js lines 36-43). -/
def orDefault (v : Option Nat) (dflt : Nat) : Nat :=
  match v with
  | none => dflt
  | some n => if n = 0 then dflt else n

/-- bot.js line 37: `this.loginRetryDelay = settings.login_retry_delay || 5000`. -/
def loginRetryDelayOf (login_retry_delay : Option Nat) : Nat :=
  orDefault login_retry_delay 5000

/-- bot.js line 43: `this.gcReconnectDelay = settings.gc_reconnect_delay || 10000`. -/
def gcReconnectDelayOf (gc_reconnect_delay : Option Nat) : Nat :=
  orDefault gc_reconnect_delay 10000

/-- bot.js `scheduleLoginRetry`, lines 315-325: increment
`currentLoginRetries`, then the armed delay is
`loginRetryDelay * 2 ^ (currentLoginRetries - 1)`.
Returns (new retry counter, scheduled delay in ms). -/
def scheduleLoginRetry (loginRetryDelay currentLoginRetries : Nat) : Nat × Nat :=
  let n := currentLoginRetries + 1
  (n, loginRetryDelay * 2 ^ (n - 1))

/-- Outcome of `scheduleGCReconnect`. -/
inductive GCReconnectOutcome where
  | gcReconnectFailed
  | scheduled (newAttempts : Nat) (delay : Nat)
deriving DecidableEq, Repr

/-- bot.js `scheduleGCReconnect`, lines 330-353: when the attempt counter has
reached the cap, emit `gcReconnectFailed` and stop; else increment and arm a
timer for `gcReconnectDelay * 2 ^ (currentGCReconnectAttempts - 1)` ms. -/
def scheduleGCReconnect (gcReconnectDelay currentGCReconnectAttempts
    maxGCReconnectAttempts : Nat) : GCReconnectOutcome :=
  if maxGCReconnectAttempts ≤ currentGCReconnectAttempts then
    .gcReconnectFailed
  else
    let n := currentGCReconnectAttempts + 1
    .scheduled n (gcReconnectDelay * 2 ^ (n - 1))

/-! ## destroy (bot.js lines 391-410) -/

/-- bot.js `destroy()`: clear `loginRetryTimeout`, `gcReconnectTimeout` and
`healthCheckInterval`, then `steamClient.logOff()`.  The 30-minute refresh
interval of the constructor (whose handle was never stored, bot.js line 61)
and the inspect `ttlTimeout` are not touched. -/
def destroy (st : BotSt) : BotSt :=
  { st with
    loginRetryTimeout := false
    gcReconnectTimeout := false
    healthCheckInterval := false
    sessionLoggedOn := false }

/-! ## Bot event-step transition system

Events a bot processes between which its state is observable.  `send` is a
dispatch from the controller, which only hands a request to a bot with
`!bot.busy && bot.ready` (bot_controller.js line 105); the timer-firing
events are enabled only while the corresponding timer is armed. -/

inductive BotEv where
  | send (link : LinkParams) (now : Nat)
  | reply (raw : RawItemInfo) (now : Nat)
  | ttlFire
  | cooldownFire
  | connectedToGC (now : Nat)
  | disconnectedFromGC

/-- The state transition each event performs (bot.js handlers):
`send` = `sendFloatRequest`; `reply` = the `inspectItemInfo` handler;
`ttlFire` = the TTL timeout body (lines 303-308): clear `busy` and
`currentRequest`, reject; `cooldownFire` = the post-reply timeout
(lines 245-248): clear `busy`; `connectedToGC` (lines 252-265): reset the GC
attempt counter and its timer, stamp activity, become ready;
`disconnectedFromGC` (lines 267-273): become unready and schedule a GC
reconnect. -/
def botStep (cfg : Settings) (st : BotSt) : BotEv → BotSt
  | .send link now => (sendFloatRequest st link now).state
  | .reply raw now => (inspectItemInfoStep cfg st raw now).1
  | .ttlFire =>
    { st with busy := false, currentRequest := none, ttlTimeout := false }
  | .cooldownFire =>
    { st with busy := false, busyCooldownTimer := false }
  | .connectedToGC now =>
    { st with
      currentGCReconnectAttempts := 0
      gcReconnectTimeout := false
      lastGCActivity := now
      ready := true }
  | .disconnectedFromGC =>
    let st1 := { st with ready := false }
    match scheduleGCReconnect cfg.gcReconnectDelay st1.currentGCReconnectAttempts
        cfg.maxGCReconnectAttempts with
    | .gcReconnectFailed => st1
    | .scheduled n _ =>
      { st1 with currentGCReconnectAttempts := n, gcReconnectTimeout := true }

/-- When an event can occur: the controller dispatches only to a free ready
bot; a timer fires only while armed; GC events can arrive at any time. -/
def botEvEnabled (st : BotSt) : BotEv → Prop
  | .send _ _ => st.busy = false ∧ st.ready = true
  | .reply _ _ => True
  | .ttlFire => st.ttlTimeout = true
  | .cooldownFire => st.busyCooldownTimer = true
  | .connectedToGC _ => True
  | .disconnectedFromGC => True

/-- States reachable from the constructor state through enabled events. -/
inductive BotReachable (cfg : Settings) : BotSt → Prop where
  | init (now : Nat) : BotReachable cfg (initBot now)
  | step {st : BotSt} (e : BotEv) :
      BotReachable cfg st → botEvEnabled st e →
      BotReachable cfg (botStep cfg st e)

/-! ## BotController aggregate readiness (bot_controller.js lines 8-45, 111-117)

The controller state exposed to the readiness logic is the `readyEvent` latch
and, per bot, the `ready_` flag maintained by the Bot `ready` setter
(bot.js lines 12-27).  The setter assigns `ready_` and emits `ready` /
`unready` only on a change; the controller handlers (bot_controller.js lines
28-45) then consult `hasBotOnline()` and the latch. -/

structure CtrlSt where
  readyEvent : Bool
  botReady : List Bool
deriving DecidableEq, Repr

/-- bot_controller.js `hasBotOnline`, lines 111-117. -/
def hasBotOnline (c : CtrlSt) : Bool := c.botReady.any id

/-- What the controller emits on its own emitter. -/
inductive CtrlEmission where
  | ready
  | unready
deriving DecidableEq, Repr

/-- Controller-level events: a bot is added (bot_controller.js `addBot`
pushes a freshly constructed — hence unready — bot), or bot `i` has its
`ready` setter run with value `v`. -/
inductive CtrlEv where
  | addBot
  | setReady (i : Nat) (v : Bool)

/-- One controller event: `addBot` appends an unready bot; `setReady i v`
runs the Bot ready setter — assign, and if the value changed, emit, upon
which the subscribed controller handler fires: on a bot `ready` event, if
the latch is down and `hasBotOnline()`, raise the latch and emit `ready`;
on a bot `unready` event, if the latch is up and not `hasBotOnline()`,
lower the latch and emit `unready`. -/
def ctrlStep (c : CtrlSt) : CtrlEv → CtrlSt × List CtrlEmission
  | .addBot => ({ c with botReady := c.botReady ++ [false] }, [])
  | .setReady i v =>
    match c.botReady.get? i with
    | none => (c, [])
    | some prev =>
      if v = prev then ({ c with botReady := c.botReady.set i v }, [])
      else if v then
        if !c.readyEvent && (c.botReady.set i v).any id then
          ({ readyEvent := true, botReady := c.botReady.set i v }, [.ready])
        else ({ c with botReady := c.botReady.set i v }, [])
      else
        if c.readyEvent && !((c.botReady.set i v).any id) then
          ({ readyEvent := false, botReady := c.botReady.set i v }, [.unready])
        else ({ c with botReady := c.botReady.set i v }, [])

/-- Run a trace of controller events, collecting emissions in order. -/
def ctrlRun (c : CtrlSt) : List CtrlEv → CtrlSt × List CtrlEmission
  | [] => (c, [])
  | e :: es =>
    let r := ctrlStep c e
    let rest := ctrlRun r.1 es
    (rest.1, r.2 ++ rest.2)

/-- How many times `x` was emitted. -/
def emCount (x : CtrlEmission) : List CtrlEmission → Nat
  | [] => 0
  | e :: es => (if e = x then 1 else 0) + emCount x es

/-- Number of rising edges (false → true) of the predicate
"some bot is ready" along a trace. -/
def readyRisingEdges (c : CtrlSt) : List CtrlEv → Nat
  | [] => 0
  | e :: es =>
    let c1 := (ctrlStep c e).1
    (if !hasBotOnline c && hasBotOnline c1 then 1 else 0) +
      readyRisingEdges c1 es

/-- Number of falling edges (true → false) of "some bot is ready". -/
def readyFallingEdges (c : CtrlSt) : List CtrlEv → Nat
  | [] => 0
  | e :: es =>
    let c1 := (ctrlStep c e).1
    (if hasBotOnline c && !hasBotOnline c1 then 1 else 0) +
      readyFallingEdges c1 es

/-- The controller as constructed (bot_controller.js lines 8-15):
latch down, no bots. -/
def initCtrl : CtrlSt := { readyEvent := false, botReady := [] }

/-! ## Dispatch (bot_controller.js lines 102-109, 140-145) -/

/-- The per-bot fields `getFreeBot` reads. -/
structure PoolBot where
  botId : Nat
  busy : Bool
  ready : Bool
deriving DecidableEq, Repr

/-- Swap two positions of a list (identity when either index is out of
range). -/
def listSwap {α : Type} (l : List α) (i j : Nat) : List α :=
  match l.get? i, l.get? j with
  | some x, some y => (l.set i y).set j x
  | _, _ => l

/-- Fisher-Yates main loop, counting `i` down to 1; at index `i` the drawn
position is `pick i` clamped into `0..i`. -/
def fisherYatesAux {α : Type} (pick : Nat → Nat) : Nat → List α → List α
  | 0, l => l
  | i + 1, l => fisherYatesAux pick i (listSwap l (i + 1) (pick (i + 1) % (i + 2)))

/-- Modelled from the spec: `utils.shuffleArray` (bot_controller.js line 104
requires it from `./utils`, which is not among the source files) — the spec
says "shuffle the bot list (Fisher-Yates)".  The random draws are a
parameter: `pick i` stands for `Math.floor(Math.random() * (i + 1))` at loop
index `i`. -/
def shuffleArray {α : Type} (pick : Nat → Nat) (l : List α) : List α :=
  fisherYatesAux pick (l.length - 1) l

/-- bot_controller.js `getFreeBot`, lines 102-109: walk the shuffled list and
return the first bot with `!bot.busy && bot.ready`; `none` models the
`false` it returns when there is no such bot. -/
def getFreeBot (pick : Nat → Nat) (bots : List PoolBot) : Option PoolBot :=
  (shuffleArray pick bots).find? fun b => !b.busy && b.ready

/-- What `lookupFloat` does with the request. -/
inductive LookupOutcome where
  | dispatched (b : PoolBot)
  | noBotsAvailable
deriving DecidableEq, Repr

/-- bot_controller.js `lookupFloat`, lines 140-145: forward to the free bot
if any, else reject with `errors.NoBotsAvailable`. -/
def lookupFloat (pick : Nat → Nat) (bots : List PoolBot) : LookupOutcome :=
  match getFreeBot pick bots with
  | some b => .dispatched b
  | none => .noBotsAvailable

/-! ## Event names (claim C10) -/

/-- bot.js line 144: `this.emit('loginFailed', err)`. -/
def botLoginFailedEventName : String := "loginFailed"

/-- bot_controller.js line 24: `bot.on('login_failed', ...)`. -/
def controllerLoginFailedSubscription : String := "login_failed"

/-- EventEmitter dispatch: a listener registered for `listenerEvent` runs
once per emission whose name equals it. -/
def listenerInvocations (listenerEvent : String) (emitted : List String) : Nat :=
  (emitted.filter fun e => e == listenerEvent).length

/-! ## Auxiliary definitions used by the statements below -/

/-- The invariant that actually holds of reachable bot states, replacing the
spec's `busy ⇔ PendingRequest ≠ ∅`: a pending request forces `busy` and
excludes the cooldown timer, and an armed cooldown timer forces `busy` and
excludes the TTL timer. -/
def botInv (st : BotSt) : Prop :=
  (st.currentRequest ≠ none → st.busy = true ∧ st.busyCooldownTimer = false) ∧
  (st.busyCooldownTimer = true → st.busy = true ∧ st.ttlTimeout = false)

/-- A concrete settings record used by concrete runs below. -/
def cfg0 : Settings :=
  { request_delay := 1000, maxGCReconnectAttempts := 10, gcReconnectDelay := 10000 }

/-- A concrete inspect link. -/
def link0 : LinkParams := { s := "76561198084749846", a := "18273981247", d := "480085569", m := "0" }

/-- A ready, idle bot: the constructor state after `connectedToGC`. -/
def readyBot : BotSt := botStep cfg0 (initBot 0) (.connectedToGC 1)

/-- The bot after the controller dispatched `link0` to `readyBot`. -/
def busyBot : BotSt := botStep cfg0 readyBot (.send link0 2)

/-- A raw GC reply matching `link0.a`. -/
def rawReply0 : RawItemInfo :=
  { itemid := "18273981247", paintseed := none, paintwear := some 355498
    stickers := [{ sticker_id := some 613, slot := 0, wear := none }] }

/-- The bot after the matching reply arrived: in its post-reply cooldown. -/
def cooldownBot : BotSt := botStep cfg0 busyBot (.reply rawReply0 3)

/-- A bot state in which every timer the claims mention is armed. -/
def allTimersArmed : BotSt :=
  { initBot 0 with
    loginRetryTimeout := true
    gcReconnectTimeout := true
    ttlTimeout := true
    busyCooldownTimer := true
    busy := true
    sessionLoggedOn := true }

/-! # Theorems -/

/-- Claim C1, counterexample.  On a bot that is not ready, `sendFloatRequest`
does reject with the not-ready message, but the claim's "the bot's state is
unchanged" is false: the call sets `busy`, records the request, and arms the
TTL timer before ever looking at `ready` (bot.js lines 286-292, 303). -/
theorem C1_counterexample :
    (sendFloatRequest (initBot 0) link0 5).rejection = some "This bot is not ready" ∧
    (initBot 0).busy = false ∧
    (sendFloatRequest (initBot 0) link0 5).state.busy = true ∧
    (sendFloatRequest (initBot 0) link0 5).state.currentRequest ≠ none ∧
    (sendFloatRequest (initBot 0) link0 5).state.ttlTimeout = true := by
  refine ⟨rfl, rfl, rfl, ?_, rfl⟩
  simp [sendFloatRequest, initBot, link0]

/-- Claim C1 (amended): `sendFloatRequest` always sets `busy`, stores the
`resolve` callback, records the `PendingRequest` with the current timestamp,
and arms the TTL timer; when the bot is not ready it rejects immediately with
the not-ready message and does not forward the inspect to the session client,
and when it is ready it forwards `inspectItem` (owner `s` unless `s = "0"`,
then `m`) and rejects nothing. -/
theorem C1_sendFloatRequest_spec (st : BotSt) (link : LinkParams) (now : Nat) :
    (sendFloatRequest st link now).state.busy = true ∧
    (sendFloatRequest st link now).state.hasResolve = true ∧
    (sendFloatRequest st link now).state.currentRequest =
      some { s := link.s, a := link.a, d := link.d, m := link.m, time := now } ∧
    (sendFloatRequest st link now).state.ttlTimeout = true ∧
    (sendFloatRequest st link now).rejection =
      (if st.ready then none else some "This bot is not ready") ∧
    (sendFloatRequest st link now).call =
      (if st.ready then
        some { owner := if link.s ≠ "0" then link.s else link.m
               assetid := link.a, d := link.d }
       else none) := by
  refine ⟨rfl, rfl, rfl, rfl, ?_, ?_⟩ <;> simp [sendFloatRequest]

/-- Claim C4, counterexample.  `eresult 61` (invalid password) is not
retryable; with `currentLoginRetries = 0 < maxLoginRetries = 5` the error
handler falls through both branches of bot.js lines 140-145: it neither
schedules a retry nor emits `loginFailed` (and the code has no DEAD state at
all), contradicting the claim that `loginFailed` is emitted. -/
theorem C4_counterexample :
    isRetryableError { msg := "Invalid Password", eresult := some 61 } = false ∧
    loginErrorAction { msg := "Invalid Password", eresult := some 61 } 0 5 =
      .noAction := by
  decide

/-- Claim C4 (amended): for a login error that is not retryable, the bot
never schedules a retry; it emits `loginFailed` only when
`currentLoginRetries` has already reached `maxLoginRetries`, and otherwise
does nothing at all — no retry, no `loginFailed`, and there is no DEAD
transition in the code. -/
theorem C4_nonretryable_action (e : SteamErr) (cur maxR : Nat)
    (h : isRetryableError e = false) :
    loginErrorAction e cur maxR =
      (if maxR ≤ cur then .emitLoginFailed else .noAction) := by
  simp [loginErrorAction, h]

/-- Claim C4, witness: the amended statement evaluated on a concrete
non-retryable error below and at the retry cap. -/
theorem C4_witness :
    loginErrorAction { msg := "Account disabled", eresult := some 63 } 2 5 = .noAction ∧
    loginErrorAction { msg := "Account disabled", eresult := some 63 } 5 5 =
      .emitLoginFailed := by
  have h1 := C4_nonretryable_action { msg := "Account disabled", eresult := some 63 } 2 5 (by decide)
  have h2 := C4_nonretryable_action { msg := "Account disabled", eresult := some 63 } 5 5 (by decide)
  exact ⟨by rw [h1]; decide, by rw [h2]; decide⟩

/-- Claim C5: an `inspectItemInfo` reply whose `itemid` differs from the
pending request's `a` leaves the whole bot state untouched and resolves
nothing — the handler returns before any mutation (bot.js line 203). -/
theorem C5_stale_reply_ignored (cfg : Settings) (st : BotSt) (req : PendingReq)
    (raw : RawItemInfo) (now : Nat)
    (hreq : st.currentRequest = some req)
    (hid : raw.itemid ≠ req.a) :
    inspectItemInfoStep cfg st raw now = (st, none) := by
  unfold inspectItemInfoStep
  rw [hreq]
  by_cases hres : st.hasResolve <;> simp [hres, hid]

/-- Claim C5, witness: a stale reply (itemid `"1"` against pending asset
`a`) delivered to the busy bot leaves it exactly as it was. -/
theorem C5_witness :
    inspectItemInfoStep cfg0 busyBot
      { itemid := "1", paintseed := some 3, paintwear := some 7, stickers := [] } 4 =
      (busyBot, none) :=
  C5_stale_reply_ignored cfg0 busyBot
    { s := link0.s, a := link0.a, d := link0.d, m := link0.m, time := 2 }
    { itemid := "1", paintseed := some 3, paintwear := some 7, stickers := [] } 4
    (by rfl) (by decide)

/-- Claim C8: the `n`-th scheduled retry delay is `base * 2 ^ (n - 1)` —
entered with counter `n - 1`, `scheduleLoginRetry` arms
`loginRetryDelay * 2 ^ (n - 1)` and `scheduleGCReconnect` (below its cap)
arms `gcReconnectDelay * 2 ^ (n - 1)`; the defaulted bases are 5000 ms and
10000 ms. -/
theorem C8_backoff_delays (base gcBase maxA n : Nat) (hn : 1 ≤ n)
    (hcap : n - 1 < maxA) :
    (scheduleLoginRetry base (n - 1)).2 = base * 2 ^ (n - 1) ∧
    scheduleGCReconnect gcBase (n - 1) maxA =
      .scheduled n (gcBase * 2 ^ (n - 1)) ∧
    loginRetryDelayOf none = 5000 ∧
    gcReconnectDelayOf none = 10000 := by
  refine ⟨by simp [scheduleLoginRetry], ?_, rfl, rfl⟩
  unfold scheduleGCReconnect
  rw [if_neg (by omega)]
  simp
  omega

/-- Claim C8, witness: the third login retry is delayed 5000 · 2² ms and the
third GC reconnect 10000 · 2² ms. -/
theorem C8_witness :
    (scheduleLoginRetry 5000 (3 - 1)).2 = 5000 * 2 ^ (3 - 1) ∧
    scheduleGCReconnect 10000 (3 - 1) 10 = .scheduled 3 (10000 * 2 ^ (3 - 1)) ∧
    loginRetryDelayOf none = 5000 ∧
    gcReconnectDelayOf none = 10000 :=
  C8_backoff_delays 5000 10000 10 3 (by decide) (by decide)

/-- Claim C9, counterexample.  `destroy()` clears the login-retry,
GC-reconnect and health-check timers and logs off, but the claim that it
cancels *every* timer is false: the 30-minute refresh interval (whose handle
the constructor never stored, bot.js line 61) and the inspect TTL timer
survive `destroy()`. -/
theorem C9_counterexample :
    (destroy allTimersArmed).refreshInterval = true ∧
    (destroy allTimersArmed).ttlTimeout = true ∧
    (destroy allTimersArmed).busyCooldownTimer = true := by
  decide

/-- Claim C9 (amended): `destroy()` cancels the login-retry timer, the
GC-reconnect timer and the health-check interval and logs off the session,
but leaves the 30-minute refresh interval, the inspect TTL timer and the
post-reply cooldown timer armed if they were. -/
theorem C9_destroy_spec (st : BotSt) :
    (destroy st).loginRetryTimeout = false ∧
    (destroy st).gcReconnectTimeout = false ∧
    (destroy st).healthCheckInterval = false ∧
    (destroy st).sessionLoggedOn = false ∧
    (destroy st).refreshInterval = st.refreshInterval ∧
    (destroy st).ttlTimeout = st.ttlTimeout ∧
    (destroy st).busyCooldownTimer = st.busyCooldownTimer := by
  simp [destroy]

/-- Claim C10: the controller subscribes to `'login_failed'` while the bot
emits `'loginFailed'`; over any sequence of bot login-failure emissions the
controller's login-failure listener runs zero times. -/
theorem C10_listener_never_fires (emitted : List String)
    (h : ∀ e ∈ emitted, e = botLoginFailedEventName) :
    botLoginFailedEventName ≠ controllerLoginFailedSubscription ∧
    listenerInvocations controllerLoginFailedSubscription emitted = 0 := by
  refine ⟨by decide, ?_⟩
  unfold listenerInvocations
  rw [List.length_eq_zero, List.filter_eq_nil_iff]
  intro e he
  rw [h e he]
  decide

/-- Claim C10, witness: two permanent login failures emitted by a bot invoke
the controller's `'login_failed'` listener zero times. -/
theorem C10_witness :
    botLoginFailedEventName ≠ controllerLoginFailedSubscription ∧
    listenerInvocations controllerLoginFailedSubscription
      ["loginFailed", "loginFailed"] = 0 :=
  C10_listener_never_fires ["loginFailed", "loginFailed"] (by decide)

/-- Claim C3: for a GC reply matching the pending request, the delivered
item data has `floatvalue` equal to the raw `paintwear` with `paintwear`
deleted, `paintseed` defaulted to 0 when the raw one is null or undefined,
every sticker's `sticker_id` moved to `stickerId` with `sticker_id` deleted,
the request fields `s a d m` attached, and
`delay = max(0, request_delay - (now - pending.time))`. -/
theorem C3_reply_normalization (cfg : Settings) (st : BotSt) (req : PendingReq)
    (raw : RawItemInfo) (now : Nat)
    (hres : st.hasResolve = true)
    (hreq : st.currentRequest = some req)
    (hid : raw.itemid = req.a) :
    (inspectItemInfoStep cfg st raw now).2 =
      some { iteminfo :=
               { itemid := raw.itemid
                 paintseed := raw.paintseed.getD 0
                 paintwear := none
                 floatvalue := raw.paintwear
                 stickers := raw.stickers.map fun s0 =>
                   { stickerId := s0.sticker_id, sticker_id := none
                     slot := s0.slot, wear := s0.wear }
                 s := req.s, a := req.a, d := req.d, m := req.m }
             delay := max 0 (cfg.request_delay - ((now : Int) - (req.time : Int))) } := by
  unfold inspectItemInfoStep
  rw [hreq]
  dsimp only
  rw [if_pos hres, if_neg (by simp [hid])]
  have hdelay :
      (if cfg.request_delay - ((now : Int) - (req.time : Int)) < 0 then (0 : Int)
       else cfg.request_delay - ((now : Int) - (req.time : Int))) =
        max 0 (cfg.request_delay - ((now : Int) - (req.time : Int))) := by
    rw [Int.max_def]
    split_ifs <;> omega
  simp only [normalizeItemInfo, hdelay, hid]
  rfl

/-- Claim C3, witness: the full normalization evaluated on a concrete reply
(`paintseed` null, `paintwear = 355498`, one sticker) against the concrete
pending request of `busyBot`. -/
theorem C3_witness :
    (inspectItemInfoStep cfg0 busyBot rawReply0 3).2 =
      some { iteminfo :=
               { itemid := rawReply0.itemid
                 paintseed := rawReply0.paintseed.getD 0
                 paintwear := none
                 floatvalue := rawReply0.paintwear
                 stickers := rawReply0.stickers.map fun s0 =>
                   { stickerId := s0.sticker_id, sticker_id := none
                     slot := s0.slot, wear := s0.wear }
                 s := link0.s, a := link0.a, d := link0.d, m := link0.m }
             delay := max 0 (cfg0.request_delay - ((3 : Int) - ((2 : Nat) : Int))) } :=
  C3_reply_normalization cfg0 busyBot
    { s := link0.s, a := link0.a, d := link0.d, m := link0.m, time := 2 }
    rawReply0 3 (by rfl) (by rfl) (by decide)

/-- Helper: swapping two positions never introduces new elements. -/
theorem mem_of_mem_listSwap {α : Type} {l : List α} {i j : Nat} {b : α}
    (hb : b ∈ listSwap l i j) : b ∈ l := by
  unfold listSwap at hb
  cases hi : l.get? i with
  | none => rw [hi] at hb; exact hb
  | some x =>
    cases hj : l.get? j with
    | none => rw [hi, hj] at hb; exact hb
    | some y =>
      rw [hi, hj] at hb
      rcases List.mem_or_eq_of_mem_set hb with hb1 | hb1
      · rcases List.mem_or_eq_of_mem_set hb1 with hb2 | hb2
        · exact hb2
        · exact hb2 ▸ List.get?_mem hj
      · exact hb1 ▸ List.get?_mem hi

/-- Helper: the Fisher-Yates loop never introduces new elements. -/
theorem mem_of_mem_fisherYatesAux {α : Type} (pick : Nat → Nat) :
    ∀ (n : Nat) (l : List α) (b : α), b ∈ fisherYatesAux pick n l → b ∈ l
  | 0, _, _, hb => hb
  | n + 1, _, b, hb =>
    mem_of_mem_listSwap (mem_of_mem_fisherYatesAux pick n _ b hb)

/-- Helper: the shuffled list is made of elements of the original list. -/
theorem mem_of_mem_shuffleArray {α : Type} {pick : Nat → Nat} {l : List α}
    {b : α} (hb : b ∈ shuffleArray pick l) : b ∈ l :=
  mem_of_mem_fisherYatesAux pick (l.length - 1) l b hb

/-- Claim C7: whatever the random draws, `getFreeBot` only ever returns a
bot of the pool that is not busy and is ready, and when no bot of the pool
is simultaneously free and ready, `lookupFloat` rejects with
`NoBotsAvailable`. -/
theorem C7_dispatch_safe (pick : Nat → Nat) (bots : List PoolBot) :
    (∀ b : PoolBot, getFreeBot pick bots = some b →
      b.busy = false ∧ b.ready = true ∧ b ∈ bots) ∧
    ((∀ b ∈ bots, b.busy = true ∨ b.ready = false) →
      lookupFloat pick bots = .noBotsAvailable) := by
  constructor
  · intro b hb
    have hp := List.find?_some hb
    have hmem : b ∈ shuffleArray pick bots :=
      List.mem_of_find?_eq_some hb
    simp only [Bool.and_eq_true, Bool.not_eq_true'] at hp
    exact ⟨hp.1, hp.2, mem_of_mem_shuffleArray hmem⟩
  · intro hall
    unfold lookupFloat
    have hnone : getFreeBot pick bots = none := by
      unfold getFreeBot
      rw [List.find?_eq_none]
      intro b hb
      rcases hall b (mem_of_mem_shuffleArray hb) with h | h <;>
        simp [h]
    rw [hnone]

/-- Claim C7, witness: a pool with one busy bot and one unready bot has no
free ready bot, so `lookupFloat` rejects with `NoBotsAvailable`. -/
theorem C7_witness :
    lookupFloat (fun _ => 0)
      [{ botId := 0, busy := true, ready := true },
       { botId := 1, busy := false, ready := false }] = .noBotsAvailable :=
  (C7_dispatch_safe (fun _ => 0)
    [{ botId := 0, busy := true, ready := true },
     { botId := 1, busy := false, ready := false }]).2 (by decide)

/-- Helper: the invariant holds of the constructor state. -/
theorem botInv_initBot (now : Nat) : botInv (initBot now) := by
  simp [botInv, initBot]

/-- Helper: every enabled event preserves the invariant. -/
theorem botInv_step (cfg : Settings) (st : BotSt) (e : BotEv)
    (hinv : botInv st) (hen : botEvEnabled st e) : botInv (botStep cfg st e) := by
  obtain ⟨h1, h2⟩ := hinv
  cases e with
  | send link now =>
    obtain ⟨hbusy, _⟩ := hen
    have hcool : st.busyCooldownTimer = false := by
      cases hc : st.busyCooldownTimer
      · rfl
      · rw [(h2 hc).1] at hbusy; exact absurd hbusy (by simp)
    simp [botStep, sendFloatRequest, botInv, hcool]
  | reply raw now =>
    cases hcr : st.currentRequest with
    | none =>
      simp only [botStep, inspectItemInfoStep, hcr]
      exact ⟨h1, h2⟩
    | some req =>
      simp only [botStep, inspectItemInfoStep, hcr]
      cases hres : st.hasResolve with
      | false => simp only [Bool.false_eq_true, if_false]; exact ⟨h1, h2⟩
      | true =>
        rw [if_pos rfl]
        by_cases hid : raw.itemid ≠ req.a
        · rw [if_pos hid]; exact ⟨h1, h2⟩
        · rw [if_neg hid]
          refine ⟨by simp [botInv], ?_⟩
          intro _
          exact ⟨(h1 (by simp [hcr])).1, rfl⟩
  | ttlFire =>
    have hent : st.ttlTimeout = true := hen
    have hcool : st.busyCooldownTimer = false := by
      cases hc : st.busyCooldownTimer
      · rfl
      · rw [(h2 hc).2] at hent; exact absurd hent (by simp)
    simp [botStep, botInv, hcool]
  | cooldownFire =>
    have henc : st.busyCooldownTimer = true := hen
    have hcr : st.currentRequest = none := by
      cases hc : st.currentRequest with
      | none => rfl
      | some r => rw [(h1 (by simp [hc])).2] at henc; exact absurd henc (by simp)
    simp [botStep, botInv, hcr]
  | connectedToGC now =>
    exact ⟨h1, h2⟩
  | disconnectedFromGC =>
    cases hs : scheduleGCReconnect cfg.gcReconnectDelay st.currentGCReconnectAttempts
        cfg.maxGCReconnectAttempts with
    | gcReconnectFailed =>
      simp only [botStep, hs]
      exact ⟨h1, h2⟩
    | scheduled n d =>
      simp only [botStep, hs]
      exact ⟨h1, h2⟩

/-- Helper: the invariant holds of every reachable bot state. -/
theorem botInv_reachable (cfg : Settings) (st : BotSt)
    (h : BotReachable cfg st) : botInv st := by
  induction h with
  | init now => exact botInv_initBot now
  | step e _ hen ih => exact botInv_step _ _ e ih hen

/-- Claim C2, counterexample.  The equivalence `busy ⇔ PendingRequest ≠ ∅`
fails on a reachable state: after a matching GC reply the handler clears
`currentRequest` at once but leaves `busy` true for the whole cooldown
window (bot.js lines 243-248) — `cooldownBot` is reachable, busy, and holds
no pending request. -/
theorem C2_counterexample :
    BotReachable cfg0 cooldownBot ∧
    cooldownBot.busy = true ∧
    cooldownBot.currentRequest = none := by
  refine ⟨?_, rfl, rfl⟩
  exact .step (.reply rawReply0 3)
    (.step (.send link0 2)
      (.step (.connectedToGC 1) (.init 0) trivial)
      ⟨rfl, rfl⟩)
    trivial

/-- Claim C2 (amended): in every reachable bot state, a pending request
forces `busy = true`; the converse direction of the claimed equivalence is
the one that fails (during the post-reply cooldown the bot stays busy with
no pending request). -/
theorem C2_pending_implies_busy (cfg : Settings) (st : BotSt)
    (h : BotReachable cfg st) (hne : st.currentRequest ≠ none) :
    st.busy = true :=
  ((botInv_reachable cfg st h).1 hne).1

/-- Claim C2, witness: the reachable dispatched state `busyBot` holds a
pending request and is indeed busy. -/
theorem C2_witness : busyBot.busy = true :=
  C2_pending_implies_busy cfg0 busyBot
    (.step (.send link0 2)
      (.step (.connectedToGC 1) (.init 0) trivial)
      ⟨rfl, rfl⟩)
    (by decide)

/-- Helper: writing back the value already at an index leaves a list
unchanged. -/
theorem set_of_get?_eq {α : Type} (l : List α) (i : Nat) (v : α)
    (h : l.get? i = some v) : l.set i v = l := by
  induction l generalizing i with
  | nil => simp at h
  | cons a t ih =>
    cases i with
    | zero => simp_all
    | succ j =>
      simp only [List.get?] at h
      simp [ih j h]

/-- Helper: a list holding `true` somewhere satisfies `any id`. -/
theorem any_id_of_get?_true (l : List Bool) (i : Nat)
    (h : l.get? i = some true) : l.any id = true := by
  rw [List.any_eq_true]
  exact ⟨true, List.get?_mem h, rfl⟩

/-- Helper: an index that reads `some` is in range. -/
theorem lt_length_of_get?_some {α : Type} (l : List α) (i : Nat) (v : α)
    (h : l.get? i = some v) : i < l.length := by
  by_contra hlen
  rw [List.get?_eq_none.mpr (by omega)] at h
  exact absurd h (by simp)

/-- Helper: reading back a written index. -/
theorem get?_set_self {α : Type} (l : List α) (i : Nat) (v : α)
    (h : i < l.length) : (l.set i v).get? i = some v := by
  induction l generalizing i with
  | nil => simp at h
  | cons a t ih =>
    cases i with
    | zero => rfl
    | succ j => simpa using ih j (by simpa using h)

/-- Helper: the emission counter is additive over concatenation. -/
theorem emCount_append (x : CtrlEmission) (a b : List CtrlEmission) :
    emCount x (a ++ b) = emCount x a + emCount x b := by
  induction a with
  | nil => simp [emCount]
  | cons e es ih => simp [emCount, ih, Nat.add_assoc]

/-- Helper: a true entry of a Bool list witnesses `any id`. -/
theorem mem_true_of_any (l : List Bool) (h : l.any id = true) : true ∈ l := by
  obtain ⟨x, hx, hxt⟩ := List.any_eq_true.mp h
  cases x
  · exact absurd hxt (by simp)
  · exact hx

/-- Helper: a Bool list with `any id` false holds no true entry. -/
theorem not_mem_true_of_any_false (l : List Bool) (h : l.any id = false) :
    true ∉ l := by
  intro hmem
  rw [List.any_eq_true.mpr ⟨true, hmem, rfl⟩] at h
  exact absurd h (by simp)

/-- Helper: one controller event keeps the latch equal to
`hasBotOnline`, and the emissions of the event are exactly the edge
indicators of `hasBotOnline`. -/
theorem ctrlStep_spec (c : CtrlSt) (e : CtrlEv)
    (hinv : c.readyEvent = hasBotOnline c) :
    (ctrlStep c e).1.readyEvent = hasBotOnline (ctrlStep c e).1 ∧
    emCount .ready (ctrlStep c e).2 =
      (if !hasBotOnline c && hasBotOnline (ctrlStep c e).1 then 1 else 0) ∧
    emCount .unready (ctrlStep c e).2 =
      (if hasBotOnline c && !hasBotOnline (ctrlStep c e).1 then 1 else 0) := by
  cases e with
  | addBot =>
    have hstep : ctrlStep c .addBot =
        ({ c with botReady := c.botReady ++ [false] }, []) := rfl
    have hon : hasBotOnline { c with botReady := c.botReady ++ [false] } =
        hasBotOnline c := by
      simp [hasBotOnline]
    rw [hstep]
    dsimp only
    rw [hon]
    refine ⟨hinv, ?_, ?_⟩ <;> cases hasBotOnline c <;> rfl
  | setReady i v =>
    cases hg : c.botReady.get? i with
    | none =>
      have hstep : ctrlStep c (.setReady i v) = (c, []) := by
        simp only [ctrlStep]
        rw [hg]
      rw [hstep]
      refine ⟨hinv, ?_, ?_⟩ <;> cases hasBotOnline c <;> rfl
    | some prev =>
      by_cases hvp : v = prev
      · subst hvp
        have hset : c.botReady.set i v = c.botReady := set_of_get?_eq _ _ _ hg
        have hstep : ctrlStep c (.setReady i v) = (c, []) := by
          simp only [ctrlStep]
          rw [hg]
          dsimp only
          rw [if_pos rfl, hset]
        rw [hstep]
        refine ⟨hinv, ?_, ?_⟩ <;> cases hasBotOnline c <;> rfl
      · have hlen : i < c.botReady.length := lt_length_of_get?_some _ _ _ hg
        cases v with
        | true =>
          have hprev : prev = false := by
            cases prev
            · rfl
            · exact absurd rfl hvp
          subst hprev
          have hany : (c.botReady.set i true).any id = true :=
            any_id_of_get?_true _ i (get?_set_self _ _ _ hlen)
          have hmemset : true ∈ c.botReady.set i true :=
            mem_true_of_any _ hany
          cases hre : c.readyEvent with
          | false =>
            have hon : hasBotOnline c = false := by rw [← hinv, hre]
            have hno : true ∉ c.botReady := not_mem_true_of_any_false _ hon
            have hstep : ctrlStep c (.setReady i true) =
                ({ readyEvent := true, botReady := c.botReady.set i true },
                 [.ready]) := by
              simp only [ctrlStep]
              rw [hg]
              dsimp only
              rw [if_neg (by simp), if_pos trivial, if_pos (by simp [hre, hany])]
            rw [hstep]
            dsimp only
            refine ⟨?_, ?_, ?_⟩
            · simp [hasBotOnline, hmemset]
            · simp [hasBotOnline, hmemset, hno, emCount]
            · simp [hasBotOnline, hmemset, hno, emCount]
          | true =>
            have hon : hasBotOnline c = true := by rw [← hinv, hre]
            have hmem : true ∈ c.botReady := mem_true_of_any _ hon
            have hstep : ctrlStep c (.setReady i true) =
                ({ c with botReady := c.botReady.set i true }, []) := by
              simp only [ctrlStep]
              rw [hg]
              dsimp only
              rw [if_neg (by simp), if_pos trivial, if_neg (by simp [hre])]
            rw [hstep]
            dsimp only
            refine ⟨?_, ?_, ?_⟩
            · simp [hre, hasBotOnline, hmemset]
            · simp [hasBotOnline, hmemset, hmem, emCount]
            · simp [hasBotOnline, hmemset, hmem, emCount]
        | false =>
          have hprev : prev = true := by
            cases prev
            · exact absurd rfl hvp
            · rfl
          subst hprev
          have hon : hasBotOnline c = true := any_id_of_get?_true _ i hg
          have hmem : true ∈ c.botReady := mem_true_of_any _ hon
          have hre : c.readyEvent = true := by rw [hinv, hon]
          cases hb : (c.botReady.set i false).any id with
          | true =>
            have hmemset : true ∈ c.botReady.set i false := mem_true_of_any _ hb
            have hstep : ctrlStep c (.setReady i false) =
                ({ c with botReady := c.botReady.set i false }, []) := by
              simp only [ctrlStep]
              rw [hg]
              dsimp only
              rw [if_neg (by simp), if_neg (by simp), if_neg (by simp [hb])]
            rw [hstep]
            dsimp only
            refine ⟨?_, ?_, ?_⟩
            · simp [hre, hasBotOnline, hmemset]
            · simp [hasBotOnline, hmemset, hmem, emCount]
            · simp [hasBotOnline, hmemset, hmem, emCount]
          | false =>
            have hnoset : true ∉ c.botReady.set i false :=
              not_mem_true_of_any_false _ hb
            have hstep : ctrlStep c (.setReady i false) =
                ({ readyEvent := false, botReady := c.botReady.set i false },
                 [.unready]) := by
              simp only [ctrlStep]
              rw [hg]
              dsimp only
              rw [if_neg (by simp), if_neg (by simp), if_pos (by simp [hre, hb])]
            rw [hstep]
            dsimp only
            refine ⟨?_, ?_, ?_⟩
            · simp [hasBotOnline, hnoset]
            · simp [hasBotOnline, hnoset, hmem, emCount]
            · simp [hasBotOnline, hnoset, hmem, emCount]

/-- Helper: over a whole trace, the emission counts are the edge counts,
provided the latch starts in agreement with `hasBotOnline`. -/
theorem ctrlRun_counts (tr : List CtrlEv) :
    ∀ c : CtrlSt, c.readyEvent = hasBotOnline c →
      emCount .ready (ctrlRun c tr).2 = readyRisingEdges c tr ∧
      emCount .unready (ctrlRun c tr).2 = readyFallingEdges c tr ∧
      (ctrlRun c tr).1.readyEvent = hasBotOnline (ctrlRun c tr).1 := by
  induction tr with
  | nil =>
    intro c hinv
    exact ⟨rfl, rfl, hinv⟩
  | cons e es ih =>
    intro c hinv
    obtain ⟨hinv1, hr, hu⟩ := ctrlStep_spec c e hinv
    obtain ⟨ihr, ihu, ihinv⟩ := ih (ctrlStep c e).1 hinv1
    refine ⟨?_, ?_, ?_⟩
    · simp only [ctrlRun, emCount_append, readyRisingEdges]
      rw [hr, ihr]
    · simp only [ctrlRun, emCount_append, readyFallingEdges]
      rw [hu, ihu]
    · exact ihinv

/-- Claim C6: controller readiness is edge-triggered — over every event
trace from the freshly constructed controller, the number of `ready`
emissions equals the number of false→true transitions of "some bot is
ready", and the number of `unready` emissions equals the number of its
true→false transitions. -/
theorem C6_edge_triggered (tr : List CtrlEv) :
    emCount .ready (ctrlRun initCtrl tr).2 = readyRisingEdges initCtrl tr ∧
    emCount .unready (ctrlRun initCtrl tr).2 = readyFallingEdges initCtrl tr :=
  ⟨(ctrlRun_counts tr initCtrl rfl).1, (ctrlRun_counts tr initCtrl rfl).2.1⟩

end Inspect
